import Mathlib

set_option maxHeartbeats 1000000

/-! Shallow embedding of the BookStack MCP core client
(`packages/core/src/bookstack-client.ts`, mirrored in the repository snapshot as
`src/unnamed/part_004`) together with the entity types from
`packages/core/src/types.ts`.  Stateful code (the two slug caches) is modelled
by explicit state passing; the network is an oracle (`Transport` / explicit
reply arguments); machine numbers are `Nat` (no overflow is relevant here);
fallible code returns `Except`/`Option`.  Strings are Lean strings; JavaScript
`substring`/`length` act on UTF-16 units while Lean counts characters, which
agree on all inputs considered here. -/

namespace BookStack

/-- Emulates the JavaScript string default `s || fallback`: the empty string is
falsy and is replaced by the fallback. -/
def jsOr (s fallback : String) : String :=
  if s = "" then fallback else s

/-- The truncation pattern used throughout response enhancement:
`text.substring(0, limit)` followed by an ellipsis marker exactly when the text
is strictly longer than the limit. -/
def jsTruncate (text : String) (limit : Nat) : String :=
  text.take limit ++ (if limit < text.length then "..." else "")

/-- Ambient platform facts used by the client: the current clock reading in
epoch milliseconds (JavaScript `new Date()`), the locale rendering of a date
(`Date.toLocaleDateString`), and the URL encoder (`encodeURIComponent`).
Timestamp strings are modelled already parsed to epoch milliseconds; the empty
timestamp string is modelled as `none`. -/
structure Env where
  nowMs : Nat
  localeDate : Nat → String
  encodeURIComponent : String → String

/-- `BookStackClient.formatDate` (part_004 lines 939-951).  The JavaScript
subtraction can be negative for future dates; every negative difference floors
to a value below 1 hour and yields the same string as the truncated `Nat`
subtraction, so the `Nat` model is extensionally faithful. -/
def formatDate (env : Env) (dateString : Option Nat) : String :=
  match dateString with
  | none => "Unknown date"
  | some dateMs =>
    let diffInHours := (env.nowMs - dateMs) / (1000 * 60 * 60)
    if diffInHours < 1 then "Less than an hour ago"
    else if diffInHours < 24 then toString diffInHours ++ " hours ago"
    else
      let diffInDays := diffInHours / 24
      if diffInDays < 7 then toString diffInDays ++ " days ago"
      else
        let diffInWeeks := diffInDays / 7
        if diffInWeeks < 4 then toString diffInWeeks ++ " weeks ago"
        else env.localeDate dateMs

/-- Entity `Tag` from types.ts. -/
structure Tag where
  name : String
  value : String
deriving DecidableEq

/-- Entity `Book` from types.ts. -/
structure Book where
  id : Nat
  name : String
  slug : String
  description : String
  created_at : Option Nat
  updated_at : Option Nat
  owned_by : Nat
deriving DecidableEq

/-- Entity `Page` from types.ts.  `chapter_id` is optional in TypeScript;
JavaScript truthiness also treats a present `0` as absent, which the embedding
reproduces where the source tests `page.chapter_id ?`. -/
structure Page where
  id : Nat
  book_id : Nat
  chapter_id : Option Nat
  name : String
  slug : String
  html : String
  markdown : String
  text : String
  created_at : Option Nat
  updated_at : Option Nat
  owned_by : Nat
deriving DecidableEq

/-- Entity `Chapter` from types.ts. -/
structure Chapter where
  id : Nat
  book_id : Nat
  name : String
  slug : String
  description : String
  created_at : Option Nat
  updated_at : Option Nat
  owned_by : Nat
deriving DecidableEq

/-- Entity `Shelf` from types.ts. -/
structure Shelf where
  id : Nat
  name : String
  slug : String
  description : String
  created_at : Option Nat
  updated_at : Option Nat
  owned_by : Nat
  books : List Book
  tags : List Tag
deriving DecidableEq

/-- Entity `Attachment` from types.ts (the optional `links` object is never
read by the client code and is omitted). -/
structure Attachment where
  id : Nat
  name : String
  extension : String
  uploaded_to : Nat
  external : Bool
  order : Nat
  created_at : Option Nat
  updated_at : Option Nat
  created_by : Nat
  updated_by : Nat
deriving DecidableEq

/-- Entity `Comment` from types.ts.  The `created_by`/`updated_by` union with a
user object and the recursive `replies` array are never read by the client code
under study and are modelled as plain ids / omitted. -/
structure Comment where
  id : Nat
  commentable_id : Nat
  commentable_type : String
  html : Option String
  parent_id : Option Nat
  local_id : Nat
  content_ref : String
  archived : Bool
  created_by : Nat
  updated_by : Nat
  created_at : Option Nat
  updated_at : Option Nat
deriving DecidableEq

/-- `preview_content` object of a search result. -/
structure PreviewContent where
  name : String
  content : String
deriving DecidableEq

/-- Entity `SearchResult` from types.ts. -/
structure SearchResult where
  type : String
  id : Nat
  name : String
  slug : String
  book_id : Option Nat
  chapter_id : Option Nat
  created_at : Option Nat
  updated_at : Option Nat
  preview_content : Option PreviewContent
deriving DecidableEq

/-- Client configuration (`BookStackConfig` after the constructor applied its
`?? false` default to `enableWrite`). -/
structure Config where
  baseUrl : String
  tokenId : String
  tokenSecret : String
  enableWrite : Bool

/-- Read-side transport oracle for the lookups issued while resolving slugs:
GET /books/:id and GET /pages/:id.  A `none` result models a request that
throws (network failure or non-2xx status); the slug-resolution callers catch
that failure. -/
structure Transport where
  fetchBook : Nat → Option Book
  fetchPage : Nat → Option Page

/-- Value cached per page by `pageInfoCache`. -/
structure PageInfo where
  slug : String
  bookId : Nat
deriving DecidableEq

/-- The two private caches of `BookStackClient`
(`bookSlugCache : Map<number, string>` and
`pageInfoCache : Map<number, { slug; bookId }>`), modelled as association
lists with the most recent insertion first, matching `Map.set`/`Map.get`. -/
structure ClientState where
  bookSlugCache : List (Nat × String)
  pageInfoCache : List (Nat × PageInfo)

/-- `BookStackClient.getBookSlug` (part_004 lines 402-414).  Returns the
resolved slug, the updated cache state, and the number of transport calls
issued (0 on a cache hit, 1 otherwise).  On a failed fetch the stringified id
is returned and nothing is cached. -/
def getBookSlug (tr : Transport) (st : ClientState) (bookId : Nat) :
    String × ClientState × Nat :=
  match st.bookSlugCache.lookup bookId with
  | some s => (s, st, 0)
  | none =>
    match tr.fetchBook bookId with
    | some data =>
      let slug := jsOr data.slug (toString bookId)
      (slug, { st with bookSlugCache := (bookId, slug) :: st.bookSlugCache }, 1)
    | none => (toString bookId, st, 1)

/-- `BookStackClient.getPageInfo` (part_004 lines 416-431).  On a failed fetch
it returns the stringified page id with book id 0 and caches nothing. -/
def getPageInfo (tr : Transport) (st : ClientState) (pageId : Nat) :
    PageInfo × ClientState × Nat :=
  match st.pageInfoCache.lookup pageId with
  | some info => (info, st, 0)
  | none =>
    match tr.fetchPage pageId with
    | some data =>
      let info : PageInfo := ⟨jsOr data.slug (toString pageId), data.book_id⟩
      (info, { st with pageInfoCache := (pageId, info) :: st.pageInfoCache }, 1)
    | none => (⟨toString pageId, 0⟩, st, 1)

/-- `BookStackClient.generatePageUrlFromId` (part_004 lines 433-440).  The
JavaScript truthiness test `if (pageInfo.bookId)` is a nonzero test. -/
def generatePageUrlFromId (cfg : Config) (tr : Transport) (st : ClientState)
    (pageId : Nat) : String × ClientState × Nat :=
  let r := getPageInfo tr st pageId
  if r.1.bookId ≠ 0 then
    let rb := getBookSlug tr r.2.1 r.1.bookId
    (cfg.baseUrl ++ "/books/" ++ rb.1 ++ "/page/" ++ r.1.slug, rb.2.1, r.2.2 + rb.2.2)
  else
    (cfg.baseUrl ++ "/link/" ++ toString pageId, r.2.1, r.2.2)

/-- `BookStackClient.generateBookUrl` (part_004 lines 442-444). -/
def generateBookUrl (cfg : Config) (book : Book) : String :=
  cfg.baseUrl ++ "/books/" ++ jsOr book.slug (toString book.id)

/-- `BookStackClient.generatePageUrl` (part_004 lines 446-449). -/
def generatePageUrl (cfg : Config) (tr : Transport) (st : ClientState)
    (page : Page) : String × ClientState × Nat :=
  let rb := getBookSlug tr st page.book_id
  (cfg.baseUrl ++ "/books/" ++ rb.1 ++ "/page/" ++ jsOr page.slug (toString page.id),
    rb.2.1, rb.2.2)

/-- `BookStackClient.generateChapterUrl` (part_004 lines 451-454). -/
def generateChapterUrl (cfg : Config) (tr : Transport) (st : ClientState)
    (chapter : Chapter) : String × ClientState × Nat :=
  let rb := getBookSlug tr st chapter.book_id
  (cfg.baseUrl ++ "/books/" ++ rb.1 ++ "/chapter/" ++ jsOr chapter.slug (toString chapter.id),
    rb.2.1, rb.2.2)

/-- `BookStackClient.generateShelfUrl` (part_004 lines 456-458). -/
def generateShelfUrl (cfg : Config) (shelf : Shelf) : String :=
  cfg.baseUrl ++ "/shelves/" ++ jsOr shelf.slug (toString shelf.id)

/-- `BookStackClient.generateSearchUrl` (part_004 lines 460-463). -/
def generateSearchUrl (cfg : Config) (env : Env) (query : String) : String :=
  cfg.baseUrl ++ "/search?term=" ++ env.encodeURIComponent query

/-- The object-spread result of `enhanceBookResponse`: the original record
plus the derived fields. -/
structure EnhancedBook where
  book : Book
  url : String
  direct_link : String
  last_updated_friendly : String
  created_friendly : String
  summary : String
  content_info : String
deriving DecidableEq

/-- `BookStackClient.enhanceBookResponse` (part_004 lines 465-477). -/
def enhanceBookResponse (cfg : Config) (env : Env) (book : Book) : EnhancedBook :=
  let lastUpdated := formatDate env book.updated_at
  let created := formatDate env book.created_at
  { book := book
    url := generateBookUrl cfg book
    direct_link := "[" ++ book.name ++ "](" ++ generateBookUrl cfg book ++ ")"
    last_updated_friendly := lastUpdated
    created_friendly := created
    summary :=
      if book.description ≠ "" then jsTruncate book.description 100
      else "No description available"
    content_info := "Book created " ++ created ++ ", last updated " ++ lastUpdated }

/-- The object-spread result of `enhancePageResponse`. -/
structure EnhancedPage where
  page : Page
  url : String
  direct_link : String
  last_updated_friendly : String
  created_friendly : String
  content_preview : String
  content_info : String
  word_count : Nat
  location : String
deriving DecidableEq

/-- `BookStackClient.enhancePageResponse` (part_004 lines 479-495).  Returns
the enhanced record together with the updated cache state and the number of
transport calls issued while resolving the book slug. -/
def enhancePageResponse (cfg : Config) (env : Env) (tr : Transport)
    (st : ClientState) (page : Page) : EnhancedPage × ClientState × Nat :=
  let lastUpdated := formatDate env page.updated_at
  let created := formatDate env page.created_at
  let contentPreview :=
    if page.text ≠ "" then jsTruncate page.text 200
    else "No content preview available"
  let ru := generatePageUrl cfg tr st page
  ({ page := page
     url := ru.1
     direct_link := "[" ++ page.name ++ "](" ++ ru.1 ++ ")"
     last_updated_friendly := lastUpdated
     created_friendly := created
     content_preview := contentPreview
     content_info := "Page created " ++ created ++ ", last updated " ++ lastUpdated
     word_count := if page.text ≠ "" then (page.text.split fun c => c == ' ').length else 0
     location := "Book ID " ++ toString page.book_id ++
       (match page.chapter_id with
        | some c => if c ≠ 0 then ", Chapter ID " ++ toString c else ""
        | none => "") }, ru.2.1, ru.2.2)

/-- The object-spread result of `enhanceChapterResponse`. -/
structure EnhancedChapter where
  chapter : Chapter
  url : String
  direct_link : String
  last_updated_friendly : String
  created_friendly : String
  summary : String
  content_info : String
  location : String
deriving DecidableEq

/-- `BookStackClient.enhanceChapterResponse` (part_004 lines 497-511). -/
def enhanceChapterResponse (cfg : Config) (env : Env) (tr : Transport)
    (st : ClientState) (chapter : Chapter) : EnhancedChapter × ClientState × Nat :=
  let lastUpdated := formatDate env chapter.updated_at
  let created := formatDate env chapter.created_at
  let ru := generateChapterUrl cfg tr st chapter
  ({ chapter := chapter
     url := ru.1
     direct_link := "[" ++ chapter.name ++ "](" ++ ru.1 ++ ")"
     last_updated_friendly := lastUpdated
     created_friendly := created
     summary :=
       if chapter.description ≠ "" then jsTruncate chapter.description 100
       else "No description available"
     content_info := "Chapter created " ++ created ++ ", last updated " ++ lastUpdated
     location := "In Book ID " ++ toString chapter.book_id }, ru.2.1, ru.2.2)

/-- Label of one tag in the shelf tags summary. -/
def tagLabel (t : Tag) : String :=
  t.name ++ (if t.value ≠ "" then "=" ++ t.value else "")

/-- The object-spread result of `enhanceShelfResponse`. -/
structure EnhancedShelf where
  shelf : Shelf
  url : String
  direct_link : String
  last_updated_friendly : String
  created_friendly : String
  summary : String
  content_info : String
  book_count : Nat
  books : List EnhancedBook
  tags_summary : String
deriving DecidableEq

/-- `BookStackClient.enhanceShelfResponse` (part_004 lines 513-529).  The
TypeScript optional chains `shelf.books?.length || 0` and `shelf.tags?.length`
are modelled with plain lists, where the empty list plays the role of an
absent array. -/
def enhanceShelfResponse (cfg : Config) (env : Env) (shelf : Shelf) : EnhancedShelf :=
  let lastUpdated := formatDate env shelf.updated_at
  let created := formatDate env shelf.created_at
  let bookCount := shelf.books.length
  { shelf := shelf
    url := generateShelfUrl cfg shelf
    direct_link := "[" ++ shelf.name ++ "](" ++ generateShelfUrl cfg shelf ++ ")"
    last_updated_friendly := lastUpdated
    created_friendly := created
    summary :=
      if shelf.description ≠ "" then jsTruncate shelf.description 100
      else "No description available"
    content_info := "Shelf with " ++ toString bookCount ++ " book" ++
      (if bookCount ≠ 1 then "s" else "") ++ ", created " ++ created ++
      ", last updated " ++ lastUpdated
    book_count := bookCount
    books := shelf.books.map (enhanceBookResponse cfg env)
    tags_summary :=
      if shelf.tags.length ≠ 0 then
        "Tagged with: " ++ String.intercalate ", " (shelf.tags.map tagLabel)
      else "No tags" }

/-- `BookStackClient.generateContentUrl` (part_004 lines 556-578).  The
truthiness test `if (result.book_id)` requires a present, nonzero id. -/
def generateContentUrl (cfg : Config) (tr : Transport) (st : ClientState)
    (result : SearchResult) : String × ClientState × Nat :=
  if result.type = "page" then
    match result.book_id with
    | some bid =>
      if bid ≠ 0 then
        let rb := getBookSlug tr st bid
        (cfg.baseUrl ++ "/books/" ++ rb.1 ++ "/page/" ++
          jsOr result.slug (toString result.id), rb.2.1, rb.2.2)
      else (cfg.baseUrl ++ "/link/" ++ toString result.id, st, 0)
    | none => (cfg.baseUrl ++ "/link/" ++ toString result.id, st, 0)
  else if result.type = "chapter" then
    match result.book_id with
    | some bid =>
      if bid ≠ 0 then
        let rb := getBookSlug tr st bid
        (cfg.baseUrl ++ "/books/" ++ rb.1 ++ "/chapter/" ++
          jsOr result.slug (toString result.id), rb.2.1, rb.2.2)
      else (cfg.baseUrl ++ "/link/" ++ toString result.id, st, 0)
    | none => (cfg.baseUrl ++ "/link/" ++ toString result.id, st, 0)
  else if result.type = "book" then
    (cfg.baseUrl ++ "/books/" ++ jsOr result.slug (toString result.id), st, 0)
  else if result.type = "bookshelf" ∨ result.type = "shelf" then
    (cfg.baseUrl ++ "/shelves/" ++ jsOr result.slug (toString result.id), st, 0)
  else (cfg.baseUrl ++ "/link/" ++ toString result.id, st, 0)

/-- One element of the enhanced search results. -/
structure EnhancedSearchResult where
  result : SearchResult
  url : String
  direct_link : String
  content_preview : String
  content_type : String
  location_info : String
deriving DecidableEq

/-- Body of the `results.map` callback inside `enhanceSearchResults`
(part_004 lines 536-546).  `charAt(0).toUpperCase() + slice(1)` is
`String.capitalize`. -/
def enhanceSearchResult (cfg : Config) (tr : Transport) (st : ClientState)
    (result : SearchResult) : EnhancedSearchResult × ClientState × Nat :=
  let ru := generateContentUrl cfg tr st result
  ({ result := result
     url := ru.1
     direct_link := "[" ++ result.name ++ "](" ++ ru.1 ++ ")"
     content_preview :=
       match result.preview_content with
       | some pc =>
         if pc.content ≠ "" then jsTruncate pc.content 150
         else "No preview available"
       | none => "No preview available"
     content_type := result.type.capitalize
     location_info :=
       match result.book_id with
       | some bid =>
         if bid ≠ 0 then
           "In book ID " ++ toString bid ++
             (match result.chapter_id with
              | some c => if c ≠ 0 then ", chapter ID " ++ toString c else ""
              | none => "")
         else "Location unknown"
       | none => "Location unknown" }, ru.2.1, ru.2.2)

/-- Enhancement of a list of search results.  The source runs the callbacks
under `Promise.all`; the runtime is single threaded and the only shared state
is the append-only slug cache, so the sequential left-to-right threading below
yields the same per-item fields proved about here. -/
def enhanceSearchResultList (cfg : Config) (tr : Transport) :
    ClientState → List SearchResult → List EnhancedSearchResult × ClientState × Nat
  | st, [] => ([], st, 0)
  | st, r :: rest =>
    let e := enhanceSearchResult cfg tr st r
    let es := enhanceSearchResultList cfg tr e.2.1 rest
    (e.1 :: es.1, es.2.1, e.2.2 + es.2.2)

/-- The envelope returned by `enhanceSearchResults` (part_004 lines 548-553). -/
structure SearchEnvelope where
  search_query : String
  search_url : String
  summary : String
  results : List EnhancedSearchResult
deriving DecidableEq

/-- `BookStackClient.enhanceSearchResults` (part_004 lines 531-554). -/
def enhanceSearchResults (cfg : Config) (env : Env) (tr : Transport)
    (st : ClientState) (results : List SearchResult) (originalQuery : String) :
    SearchEnvelope × ClientState × Nat :=
  let es := enhanceSearchResultList cfg tr st results
  ({ search_query := originalQuery
     search_url := generateSearchUrl cfg env originalQuery
     summary := "Found " ++ toString results.length ++ " results for \"" ++
       originalQuery ++ "\""
     results := es.1 }, es.2.1, es.2.2)

/-- One HTTP response as seen by the client after `fetch` resolves: the
numeric status, the parsed `retry-after` header in seconds (`none` when the
header is absent; `parseInt(h ?? '10', 10)` then defaults to 10), the body
text, and the outcome of the platform call `JSON.parse(body).message`
(`some m` when the body parses as JSON carrying a string `message` field,
`none` otherwise). -/
structure HttpResponse where
  status : Nat
  retryAfter : Option Nat
  body : String
  jsonMessage : Option String
deriving DecidableEq

/-- `res.ok` of the fetch API: the status lies in the 200-299 range. -/
def resOk (r : HttpResponse) : Bool :=
  200 ≤ r.status && r.status < 300

/-- The normalized error object thrown for a non-2xx response: a message, the
bolted-on `status` field, and the bolted-on `response = { status, data }`
field. -/
structure ApiError where
  message : String
  status : Nat
  response : Nat × String
deriving DecidableEq

/-- Error construction shared by `request` (part_004 lines 332-348) and
`requestForm` (lines 382-398): the message is the JSON `message` field when
the body parses and that field is truthy (a nonempty string), else the raw
body text. -/
def mkApiError (r : HttpResponse) : ApiError :=
  { message :=
      match r.jsonMessage with
      | some m => if m ≠ "" then m else r.body
      | none => r.body
    status := r.status
    response := (r.status, r.body) }

/-- Outcome of the request pipeline: the successful final response or the
normalized error, together with the total number of HTTP attempts issued and
the list of rate-limit waits performed (in seconds, in order). -/
inductive RequestOutcome where
  | ok (res : HttpResponse) (attempts : Nat) (waits : List Nat)
  | error (e : ApiError) (attempts : Nat) (waits : List Nat)
deriving DecidableEq

/-- The retry loop of `BookStackClient.request` (part_004 lines 317-348).
`responses n` is the response to the n-th issue of the identical request
(0-based).  The source tests `status === 429` and then `retriesLeft > 0`
before sleeping `retryAfter * 1000` ms and recursing with `retriesLeft - 1`;
with no retries left a 429 falls through to the `!res.ok` normalization like
any other non-2xx status.  Waits are recorded in seconds. -/
def requestAux (responses : Nat → HttpResponse) :
    Nat → Nat → List Nat → RequestOutcome
  | attempt, 0, waits =>
    let res := responses attempt
    if resOk res then .ok res (attempt + 1) waits
    else .error (mkApiError res) (attempt + 1) waits
  | attempt, retries + 1, waits =>
    let res := responses attempt
    if res.status = 429 then
      requestAux responses (attempt + 1) retries (waits ++ [res.retryAfter.getD 10])
    else if resOk res then .ok res (attempt + 1) waits
    else .error (mkApiError res) (attempt + 1) waits

/-- `BookStackClient.request` entered with the default retry budget
(`options?._retries ?? 3`). -/
def request (responses : Nat → HttpResponse) : RequestOutcome :=
  requestAux responses 0 3 []

/-- `BookStackClient.requestForm` (part_004 lines 363-400): a single POST with
no rate-limit retry loop, with the same error normalization. -/
def requestForm (res : HttpResponse) : RequestOutcome :=
  if resOk res then .ok res 1 [] else .error (mkApiError res) 1 []

/-- The error carried by an outcome, if any. -/
def RequestOutcome.errValue : RequestOutcome → Option ApiError
  | .error e _ _ => some e
  | .ok _ _ _ => none

/-- The fixed message of the local write-gate error thrown by every mutating
operation (`if (!this.enableWrite) throw new Error(...)`). -/
def writeDisabledMessage : String :=
  "Write operations are disabled. Set BOOKSTACK_ENABLE_WRITE=true to enable."

/-- An error escaping an operation: either a plain local `new Error(message)`
(the write gate, the missing upload file) or a normalized request error. -/
inductive OpError where
  | loc (message : String)
  | api (e : ApiError)
deriving DecidableEq

/-- Input of `createBook`. -/
structure BookCreateData where
  name : String
  description : Option String
  tags : Option (List Tag)

/-- Input of `updateBook`. -/
structure BookUpdateData where
  name : Option String
  description : Option String
  tags : Option (List Tag)

/-- Input of `createChapter`. -/
structure ChapterCreateData where
  book_id : Nat
  name : String
  description : Option String
  tags : Option (List Tag)

/-- Input of `updateChapter`. -/
structure ChapterUpdateData where
  name : Option String
  description : Option String
  book_id : Option Nat
  tags : Option (List Tag)

/-- Input of `createPage`. -/
structure PageCreateData where
  name : String
  html : Option String
  markdown : Option String
  book_id : Nat
  chapter_id : Option Nat

/-- Input of `updatePage`. -/
structure PageUpdateData where
  name : Option String
  html : Option String
  markdown : Option String

/-- Input of `createShelf`. -/
structure ShelfCreateData where
  name : String
  description : Option String
  books : Option (List Nat)
  tags : Option (List Tag)

/-- Input of `updateShelf`. -/
structure ShelfUpdateData where
  name : Option String
  description : Option String
  books : Option (List Nat)
  tags : Option (List Tag)

/-- Input of `createAttachment`. -/
structure AttachmentCreateData where
  uploaded_to : Nat
  name : String
  link : Option String

/-- Input of `uploadAttachment`. -/
structure AttachmentUploadData where
  uploaded_to : Nat
  name : Option String
  file_path : String

/-- Input of `updateAttachment`. -/
structure AttachmentUpdateData where
  name : Option String
  link : Option String
  uploaded_to : Option Nat

/-- Input of `createComment`. -/
structure CommentCreateData where
  page_id : Nat
  html : String
  reply_to : Option Nat
  content_ref : Option String

/-- Input of `updateComment`. -/
structure CommentUpdateData where
  html : Option String
  archived : Option Bool

/-- The markdown link `[name](baseUrl/attachments/id)` attached to every
enhanced attachment. -/
def attachmentDirectLink (cfg : Config) (att : Attachment) : String :=
  "[" ++ att.name ++ "](" ++ cfg.baseUrl ++ "/attachments/" ++ toString att.id ++ ")"

/-- An attachment enriched with `page_url` and `direct_link`
(`getAttachments` / `createAttachment` / `uploadAttachment` /
`updateAttachment`). -/
structure EnhancedAttachment where
  attachment : Attachment
  page_url : String
  direct_link : String
deriving DecidableEq

/-- An attachment enriched as by `getAttachment`, which additionally carries
`download_url`. -/
structure EnhancedAttachmentDetail where
  attachment : Attachment
  page_url : String
  direct_link : String
  download_url : String
deriving DecidableEq

/-- The reply oracle for one write call: what `await this.request(...)` (or
`requestForm`) would produce for the request the operation issues —
`Except.ok` with the parsed entity on success, `Except.error` with the
normalized error on failure.  Each operation below consumes such a reply and
counts 1 transport invocation when (and only when) it reaches the request. -/
abbrev Reply (α : Type) := Except ApiError α

/-- `BookStackClient.createBook` (part_004 lines 687-693).  Result value,
and the number of transport invocations performed. -/
def createBook (cfg : Config) (env : Env) (_data : BookCreateData)
    (reply : Reply Book) : Except OpError EnhancedBook × Nat :=
  if !cfg.enableWrite then (Except.error (OpError.loc writeDisabledMessage), 0)
  else
    match reply with
    | Except.ok created => (Except.ok (enhanceBookResponse cfg env created), 1)
    | Except.error e => (Except.error (OpError.api e), 1)

/-- `BookStackClient.updateBook` (part_004 lines 695-704). -/
def updateBook (cfg : Config) (env : Env) (_id : Nat) (_data : BookUpdateData)
    (reply : Reply Book) : Except OpError EnhancedBook × Nat :=
  if !cfg.enableWrite then (Except.error (OpError.loc writeDisabledMessage), 0)
  else
    match reply with
    | Except.ok updated => (Except.ok (enhanceBookResponse cfg env updated), 1)
    | Except.error e => (Except.error (OpError.api e), 1)

/-- `BookStackClient.deleteBook` (part_004 lines 706-711). -/
def deleteBook (cfg : Config) (_id : Nat) (reply : Reply Unit) :
    Except OpError Unit × Nat :=
  if !cfg.enableWrite then (Except.error (OpError.loc writeDisabledMessage), 0)
  else
    match reply with
    | Except.ok u => (Except.ok u, 1)
    | Except.error e => (Except.error (OpError.api e), 1)

/-- `BookStackClient.createChapter` (part_004 lines 713-724). -/
def createChapter (cfg : Config) (env : Env) (tr : Transport) (st : ClientState)
    (_data : ChapterCreateData) (reply : Reply Chapter) :
    Except OpError EnhancedChapter × ClientState × Nat :=
  if !cfg.enableWrite then (Except.error (OpError.loc writeDisabledMessage), st, 0)
  else
    match reply with
    | Except.ok created =>
      let r := enhanceChapterResponse cfg env tr st created
      (Except.ok r.1, r.2.1, 1 + r.2.2)
    | Except.error e => (Except.error (OpError.api e), st, 1)

/-- `BookStackClient.updateChapter` (part_004 lines 726-735). -/
def updateChapter (cfg : Config) (env : Env) (tr : Transport) (st : ClientState)
    (_id : Nat) (_data : ChapterUpdateData) (reply : Reply Chapter) :
    Except OpError EnhancedChapter × ClientState × Nat :=
  if !cfg.enableWrite then (Except.error (OpError.loc writeDisabledMessage), st, 0)
  else
    match reply with
    | Except.ok updated =>
      let r := enhanceChapterResponse cfg env tr st updated
      (Except.ok r.1, r.2.1, 1 + r.2.2)
    | Except.error e => (Except.error (OpError.api e), st, 1)

/-- `BookStackClient.deleteChapter` (part_004 lines 737-742). -/
def deleteChapter (cfg : Config) (_id : Nat) (reply : Reply Unit) :
    Except OpError Unit × Nat :=
  if !cfg.enableWrite then (Except.error (OpError.loc writeDisabledMessage), 0)
  else
    match reply with
    | Except.ok u => (Except.ok u, 1)
    | Except.error e => (Except.error (OpError.api e), 1)

/-- `BookStackClient.createPage` (part_004 lines 744-756). -/
def createPage (cfg : Config) (env : Env) (tr : Transport) (st : ClientState)
    (_data : PageCreateData) (reply : Reply Page) :
    Except OpError EnhancedPage × ClientState × Nat :=
  if !cfg.enableWrite then (Except.error (OpError.loc writeDisabledMessage), st, 0)
  else
    match reply with
    | Except.ok created =>
      let r := enhancePageResponse cfg env tr st created
      (Except.ok r.1, r.2.1, 1 + r.2.2)
    | Except.error e => (Except.error (OpError.api e), st, 1)

/-- `BookStackClient.updatePage` (part_004 lines 758-764). -/
def updatePage (cfg : Config) (env : Env) (tr : Transport) (st : ClientState)
    (_id : Nat) (_data : PageUpdateData) (reply : Reply Page) :
    Except OpError EnhancedPage × ClientState × Nat :=
  if !cfg.enableWrite then (Except.error (OpError.loc writeDisabledMessage), st, 0)
  else
    match reply with
    | Except.ok updated =>
      let r := enhancePageResponse cfg env tr st updated
      (Except.ok r.1, r.2.1, 1 + r.2.2)
    | Except.error e => (Except.error (OpError.api e), st, 1)

/-- `BookStackClient.deletePage` (part_004 lines 766-771). -/
def deletePage (cfg : Config) (_id : Nat) (reply : Reply Unit) :
    Except OpError Unit × Nat :=
  if !cfg.enableWrite then (Except.error (OpError.loc writeDisabledMessage), 0)
  else
    match reply with
    | Except.ok u => (Except.ok u, 1)
    | Except.error e => (Except.error (OpError.api e), 1)

/-- `BookStackClient.createShelf` (part_004 lines 1111-1122). -/
def createShelf (cfg : Config) (env : Env) (_data : ShelfCreateData)
    (reply : Reply Shelf) : Except OpError EnhancedShelf × Nat :=
  if !cfg.enableWrite then (Except.error (OpError.loc writeDisabledMessage), 0)
  else
    match reply with
    | Except.ok created => (Except.ok (enhanceShelfResponse cfg env created), 1)
    | Except.error e => (Except.error (OpError.api e), 1)

/-- `BookStackClient.updateShelf` (part_004 lines 1124-1133). -/
def updateShelf (cfg : Config) (env : Env) (_id : Nat) (_data : ShelfUpdateData)
    (reply : Reply Shelf) : Except OpError EnhancedShelf × Nat :=
  if !cfg.enableWrite then (Except.error (OpError.loc writeDisabledMessage), 0)
  else
    match reply with
    | Except.ok updated => (Except.ok (enhanceShelfResponse cfg env updated), 1)
    | Except.error e => (Except.error (OpError.api e), 1)

/-- `BookStackClient.deleteShelf` (part_004 lines 1135-1140). -/
def deleteShelf (cfg : Config) (_id : Nat) (reply : Reply Unit) :
    Except OpError Unit × Nat :=
  if !cfg.enableWrite then (Except.error (OpError.loc writeDisabledMessage), 0)
  else
    match reply with
    | Except.ok u => (Except.ok u, 1)
    | Except.error e => (Except.error (OpError.api e), 1)

/-- `BookStackClient.createAttachment` (part_004 lines 1179-1193). -/
def createAttachment (cfg : Config) (tr : Transport) (st : ClientState)
    (_data : AttachmentCreateData) (reply : Reply Attachment) :
    Except OpError EnhancedAttachment × ClientState × Nat :=
  if !cfg.enableWrite then (Except.error (OpError.loc writeDisabledMessage), st, 0)
  else
    match reply with
    | Except.ok att =>
      let ru := generatePageUrlFromId cfg tr st att.uploaded_to
      (Except.ok ⟨att, ru.1, attachmentDirectLink cfg att⟩, ru.2.1, 1 + ru.2.2)
    | Except.error e => (Except.error (OpError.api e), st, 1)

/-- The local filesystem and path facts consulted by `uploadAttachment`: the
HOME directory (`process.env.HOME ?? ''`), existence of a file
(`fs.existsSync`), and `path.basename`. -/
structure FileSystem where
  home : String
  fileExists : String → Bool
  baseName : String → String

/-- The tilde expansion at the top of `uploadAttachment` (part_004 lines
1203-1205): `file_path.replace('~', HOME)` guarded by `startsWith('~')`, so
exactly the leading tilde is replaced. -/
def expandPath (fs : FileSystem) (filePath : String) : String :=
  if filePath.startsWith "~" then fs.home ++ filePath.drop 1 else filePath

/-- `BookStackClient.uploadAttachment` (part_004 lines 1195-1222).  After the
write gate it checks file existence (throwing a local error before any
network call), then posts the form via `requestForm` and enriches the
reply. -/
def uploadAttachment (cfg : Config) (fs : FileSystem) (tr : Transport)
    (st : ClientState) (data : AttachmentUploadData) (reply : Reply Attachment) :
    Except OpError EnhancedAttachment × ClientState × Nat :=
  if !cfg.enableWrite then (Except.error (OpError.loc writeDisabledMessage), st, 0)
  else
    let absolutePath := expandPath fs data.file_path
    if !fs.fileExists absolutePath then
      (Except.error (OpError.loc ("File not found: " ++ absolutePath)), st, 0)
    else
      match reply with
      | Except.ok att =>
        let ru := generatePageUrlFromId cfg tr st att.uploaded_to
        (Except.ok ⟨att, ru.1, attachmentDirectLink cfg att⟩, ru.2.1, 1 + ru.2.2)
      | Except.error e => (Except.error (OpError.api e), st, 1)

/-- `BookStackClient.updateAttachment` (part_004 lines 1224-1237).  The
`page_url` is resolved from the `uploaded_to` of the reply record. -/
def updateAttachment (cfg : Config) (tr : Transport) (st : ClientState)
    (_id : Nat) (_data : AttachmentUpdateData) (reply : Reply Attachment) :
    Except OpError EnhancedAttachment × ClientState × Nat :=
  if !cfg.enableWrite then (Except.error (OpError.loc writeDisabledMessage), st, 0)
  else
    match reply with
    | Except.ok att =>
      let ru := generatePageUrlFromId cfg tr st att.uploaded_to
      (Except.ok ⟨att, ru.1, attachmentDirectLink cfg att⟩, ru.2.1, 1 + ru.2.2)
    | Except.error e => (Except.error (OpError.api e), st, 1)

/-- `BookStackClient.deleteAttachment` (part_004 lines 1239-1244). -/
def deleteAttachment (cfg : Config) (_id : Nat) (reply : Reply Unit) :
    Except OpError Unit × Nat :=
  if !cfg.enableWrite then (Except.error (OpError.loc writeDisabledMessage), 0)
  else
    match reply with
    | Except.ok u => (Except.ok u, 1)
    | Except.error e => (Except.error (OpError.api e), 1)

/-- `BookStackClient.createComment` (part_004 lines 1057-1067); comments are
returned raw, without enrichment. -/
def createComment (cfg : Config) (_data : CommentCreateData)
    (reply : Reply Comment) : Except OpError Comment × Nat :=
  if !cfg.enableWrite then (Except.error (OpError.loc writeDisabledMessage), 0)
  else
    match reply with
    | Except.ok c => (Except.ok c, 1)
    | Except.error e => (Except.error (OpError.api e), 1)

/-- `BookStackClient.updateComment` (part_004 lines 1069-1074). -/
def updateComment (cfg : Config) (_id : Nat) (_data : CommentUpdateData)
    (reply : Reply Comment) : Except OpError Comment × Nat :=
  if !cfg.enableWrite then (Except.error (OpError.loc writeDisabledMessage), 0)
  else
    match reply with
    | Except.ok c => (Except.ok c, 1)
    | Except.error e => (Except.error (OpError.api e), 1)

/-- `BookStackClient.deleteComment` (part_004 lines 1076-1081). -/
def deleteComment (cfg : Config) (_id : Nat) (reply : Reply Unit) :
    Except OpError Unit × Nat :=
  if !cfg.enableWrite then (Except.error (OpError.loc writeDisabledMessage), 0)
  else
    match reply with
    | Except.ok u => (Except.ok u, 1)
    | Except.error e => (Except.error (OpError.api e), 1)

/-- `BookStackClient.getAttachment` (part_004 lines 1169-1177): a read
operation that enriches the fetched attachment with `page_url`,
`direct_link` and `download_url`. -/
def getAttachment (cfg : Config) (tr : Transport) (st : ClientState)
    (_id : Nat) (reply : Reply Attachment) :
    Except OpError EnhancedAttachmentDetail × ClientState × Nat :=
  match reply with
  | Except.ok att =>
    let ru := generatePageUrlFromId cfg tr st att.uploaded_to
    (Except.ok ⟨att, ru.1, attachmentDirectLink cfg att,
      cfg.baseUrl ++ "/attachments/" ++ toString att.id⟩, ru.2.1, 1 + ru.2.2)
  | Except.error e => (Except.error (OpError.api e), st, 1)

/-- The `data.map` enrichment inside `getAttachments` (part_004 lines
1159-1165), threaded sequentially (single-threaded runtime, append-only
cache). -/
def enhanceAttachmentList (cfg : Config) (tr : Transport) :
    ClientState → List Attachment → List EnhancedAttachment × ClientState × Nat
  | st, [] => ([], st, 0)
  | st, att :: rest =>
    let ru := generatePageUrlFromId cfg tr st att.uploaded_to
    let es := enhanceAttachmentList cfg tr ru.2.1 rest
    (⟨att, ru.1, attachmentDirectLink cfg att⟩ :: es.1, es.2.1, ru.2.2 + es.2.2)

/-- `BookStackClient.getAttachments` (part_004 lines 1142-1167). -/
def getAttachments (cfg : Config) (tr : Transport) (st : ClientState)
    (reply : Reply (List Attachment)) :
    Except OpError (List EnhancedAttachment) × ClientState × Nat :=
  match reply with
  | Except.ok atts =>
    let es := enhanceAttachmentList cfg tr st atts
    (Except.ok es.1, es.2.1, 1 + es.2.2)
  | Except.error e => (Except.error (OpError.api e), st, 1)

/-- Modelled from the spec (for comparison with the source computation): the
number of whitespace-delimited tokens of a text, that is, the nonempty
fragments remaining after splitting at every whitespace character. -/
def whitespaceTokenCount (text : String) : Nat :=
  ((text.split fun c => c.isWhitespace).filter fun s => s ≠ "").length

/-- The word count the source actually computes, extracted from
`enhancePageResponse`: `text.split(' ').length` splits the text at every
occurrence of the single space character, empty fragments included (the
JavaScript split with a one-character string separator is the split at each
occurrence of that character); 0 for empty text. -/
def spaceSplitWordCount (text : String) : Nat :=
  if text ≠ "" then (text.split fun c => c == ' ').length else 0

/-- A fixed ambient environment for concrete evaluations. -/
def envEx : Env := ⟨0, fun _ => "1/1/2024", fun s => s⟩

/-- The empty cache state a fresh client starts from. -/
def stEmpty : ClientState := ⟨[], []⟩

/-- A transport on which every lookup fails. -/
def trNone : Transport := ⟨fun _ => none, fun _ => none⟩

/-- The parent book of the end-to-end scenario: slug `guide`. -/
def bookGuide : Book := ⟨7, "Guide", "guide", "", none, none, 1⟩

/-- The page of the end-to-end scenario: slug `intro`, owned by book 7. -/
def pageIntro : Page := ⟨42, 7, none, "Intro", "intro", "", "", "", none, none, 1⟩

/-- A transport that resolves every book to `bookGuide` and every page to
`pageIntro`. -/
def trGuide : Transport := ⟨fun _ => some bookGuide, fun _ => some pageIntro⟩

/-- Configuration for the end-to-end scenario, writes disabled. -/
def cfgDocs : Config := ⟨"https://docs.example.com", "tid", "tsec", false⟩

/-- The same configuration with writes enabled. -/
def cfgDocsOn : Config := ⟨"https://docs.example.com", "tid", "tsec", true⟩

/-- A page whose body text is empty (present but falsy in JavaScript). -/
def pageNoText : Page := ⟨3, 7, none, "Empty", "empty", "", "", "", none, none, 1⟩

/-- A page whose body text contains two consecutive spaces. -/
def pageTwoSpaces : Page := ⟨2, 7, none, "Two", "two", "", "", "a  b", none, none, 1⟩

/-- A concrete attachment owned by page 42. -/
def attEx : Attachment := ⟨5, "file.pdf", "pdf", 42, false, 1, none, none, 1, 1⟩

/-- A concrete chapter in book 7. -/
def chapterEx : Chapter := ⟨9, 7, "Ch", "ch", "", none, none, 1⟩

/-- A concrete shelf. -/
def shelfEx : Shelf := ⟨4, "Sh", "sh", "", none, none, 1, [], []⟩

/-- A concrete comment on page 42. -/
def comEx : Comment := ⟨11, 42, "page", none, none, 1, "", false, 1, 1, none, none⟩

/-- A filesystem on which every file exists. -/
def fsTrue : FileSystem := ⟨"/root", fun _ => true, fun p => p⟩

/-- A rate-limit response carrying a `retry-after: 1` header. -/
def resp429 : HttpResponse := ⟨429, some 1, "rate limited", none⟩

/-- A success response. -/
def resp200 : HttpResponse := ⟨200, none, "ok", none⟩

/-- A persistent rate-limit transport: every attempt is answered 429. -/
def responses429 : Nat → HttpResponse := fun _ => resp429

/-- A transport answering 429 to the first attempt and 200 afterwards. -/
def responses429then200 : Nat → HttpResponse :=
  fun n => if n = 0 then resp429 else resp200

/-- The not-found response of the spec scenario: status 404 with the JSON body
carrying message `Not found` (the `jsonMessage` field records the platform
JSON.parse outcome on that body). -/
def res404 : HttpResponse :=
  ⟨404, none, "\x7b\"message\": \"Not found\"\x7d", some "Not found"⟩

/-- The `page_url` field of a successful enhanced-attachment result. -/
def attPageUrl : Except OpError EnhancedAttachment → Option String
  | Except.ok a => some a.page_url
  | Except.error _ => none

/-- The `page_url` field of a successful `getAttachment` result. -/
def detailPageUrl : Except OpError EnhancedAttachmentDetail → Option String
  | Except.ok a => some a.page_url
  | Except.error _ => none

/-! Helper lemmas about string truncation. -/

/-- Taking at most the length of the string yields exactly that many
characters. -/
theorem stringTakeLengthOfLe (s : String) (n : Nat) (h : n ≤ s.length) :
    (s.take n).length = n := by
  cases s with
  | mk data =>
    rw [String.take_eq]
    simp only [String.length_mk, List.length_take] at h ⊢
    omega

/-- Taking at least the whole string returns the string unchanged. -/
theorem stringTakeOfLengthLe (s : String) (n : Nat) (h : s.length ≤ n) :
    s.take n = s := by
  cases s with
  | mk data =>
    rw [String.take_eq]
    simp only [String.length_mk] at h
    simp [List.take_of_length_le h]

/-- Truncation is the identity on text not exceeding the limit. -/
theorem jsTruncate_of_length_le (s : String) (n : Nat) (h : s.length ≤ n) :
    jsTruncate s n = s := by
  unfold jsTruncate
  rw [if_neg (by omega), stringTakeOfLengthLe s n h, String.append_empty]

/-- Truncation of strictly longer text is the limit-length cut followed by
the ellipsis marker. -/
theorem jsTruncate_eq_of_lt (s : String) (n : Nat) (h : n < s.length) :
    jsTruncate s n = s.take n ++ "..." := by
  unfold jsTruncate
  rw [if_pos h]

/-- The length of a truncated preview of strictly longer text is the
threshold plus the three marker characters. -/
theorem jsTruncate_length_of_lt (s : String) (n : Nat) (h : n < s.length) :
    (jsTruncate s n).length = n + 3 := by
  rw [jsTruncate_eq_of_lt s n h, String.length_append,
    stringTakeLengthOfLe s n (Nat.le_of_lt h)]
  rfl

/-! Claim theorems. -/

/-- Claim C9: relative-time formatting is threshold-exact over the age
buckets: a difference below 1 hour renders the fixed less-than-an-hour phrase
(the source spells it `Less than an hour ago`); below 24 hours, the hour
count; below 7 days, the day count; below 4 weeks, the week count; otherwise
the locale-rendered absolute date.  In particular 59 minutes renders the
less-than-an-hour phrase, 25 hours renders `1 days ago`, and 8 days renders
`1 weeks ago`. -/
theorem format_date_buckets (env : Env) (dateMs : Nat) :
    ((env.nowMs - dateMs) / (1000 * 60 * 60) < 1 →
      formatDate env (some dateMs) = "Less than an hour ago") ∧
    (1 ≤ (env.nowMs - dateMs) / (1000 * 60 * 60) →
      (env.nowMs - dateMs) / (1000 * 60 * 60) < 24 →
      formatDate env (some dateMs) =
        toString ((env.nowMs - dateMs) / (1000 * 60 * 60)) ++ " hours ago") ∧
    (24 ≤ (env.nowMs - dateMs) / (1000 * 60 * 60) →
      (env.nowMs - dateMs) / (1000 * 60 * 60) / 24 < 7 →
      formatDate env (some dateMs) =
        toString ((env.nowMs - dateMs) / (1000 * 60 * 60) / 24) ++ " days ago") ∧
    (7 ≤ (env.nowMs - dateMs) / (1000 * 60 * 60) / 24 →
      (env.nowMs - dateMs) / (1000 * 60 * 60) / 24 / 7 < 4 →
      formatDate env (some dateMs) =
        toString ((env.nowMs - dateMs) / (1000 * 60 * 60) / 24 / 7) ++ " weeks ago") ∧
    (4 ≤ (env.nowMs - dateMs) / (1000 * 60 * 60) / 24 / 7 →
      formatDate env (some dateMs) = env.localeDate dateMs) ∧
    (env.nowMs = dateMs + 59 * 60 * 1000 →
      formatDate env (some dateMs) = "Less than an hour ago") ∧
    (env.nowMs = dateMs + 25 * 60 * 60 * 1000 →
      formatDate env (some dateMs) = "1 days ago") ∧
    (env.nowMs = dateMs + 8 * 24 * 60 * 60 * 1000 →
      formatDate env (some dateMs) = "1 weeks ago") := by
  have b1 : (env.nowMs - dateMs) / (1000 * 60 * 60) < 1 →
      formatDate env (some dateMs) = "Less than an hour ago" := by
    intro h
    simp only [formatDate]
    split_ifs <;> first | rfl | (exfalso; omega)
  have b2 : 1 ≤ (env.nowMs - dateMs) / (1000 * 60 * 60) →
      (env.nowMs - dateMs) / (1000 * 60 * 60) < 24 →
      formatDate env (some dateMs) =
        toString ((env.nowMs - dateMs) / (1000 * 60 * 60)) ++ " hours ago" := by
    intro h1 h2
    simp only [formatDate]
    split_ifs <;> first | rfl | (exfalso; omega)
  have b3 : 24 ≤ (env.nowMs - dateMs) / (1000 * 60 * 60) →
      (env.nowMs - dateMs) / (1000 * 60 * 60) / 24 < 7 →
      formatDate env (some dateMs) =
        toString ((env.nowMs - dateMs) / (1000 * 60 * 60) / 24) ++ " days ago" := by
    intro h1 h2
    simp only [formatDate]
    split_ifs <;> first | rfl | (exfalso; omega)
  have b4 : 7 ≤ (env.nowMs - dateMs) / (1000 * 60 * 60) / 24 →
      (env.nowMs - dateMs) / (1000 * 60 * 60) / 24 / 7 < 4 →
      formatDate env (some dateMs) =
        toString ((env.nowMs - dateMs) / (1000 * 60 * 60) / 24 / 7) ++ " weeks ago" := by
    intro h1 h2
    simp only [formatDate]
    split_ifs <;> first | rfl | (exfalso; omega)
  have b5 : 4 ≤ (env.nowMs - dateMs) / (1000 * 60 * 60) / 24 / 7 →
      formatDate env (some dateMs) = env.localeDate dateMs := by
    intro h1
    simp only [formatDate]
    split_ifs <;> first | rfl | (exfalso; omega)
  refine ⟨b1, b2, b3, b4, b5, fun h => b1 (by omega), fun h => ?_, fun h => ?_⟩
  · have e : (env.nowMs - dateMs) / (1000 * 60 * 60) / 24 = 1 := by omega
    rw [b3 (by omega) (by omega), e]
    decide
  · have e : (env.nowMs - dateMs) / (1000 * 60 * 60) / 24 / 7 = 1 := by omega
    rw [b4 (by omega) (by omega), e]
    decide

/-- Witness for C9: concrete timestamps exactly 59 minutes, 25 hours and
8 days old, evaluated through the buckets theorem. -/
theorem format_date_buckets_witness :
    formatDate ⟨59 * 60 * 1000, fun _ => "1/1/2024", fun s => s⟩ (some 0) =
      "Less than an hour ago" ∧
    formatDate ⟨25 * 60 * 60 * 1000, fun _ => "1/1/2024", fun s => s⟩ (some 0) =
      "1 days ago" ∧
    formatDate ⟨8 * 24 * 60 * 60 * 1000, fun _ => "1/1/2024", fun s => s⟩ (some 0) =
      "1 weeks ago" := by
  refine ⟨?_, ?_, ?_⟩
  · exact (format_date_buckets ⟨59 * 60 * 1000, fun _ => "1/1/2024", fun s => s⟩
      0).2.2.2.2.2.1 rfl
  · exact (format_date_buckets ⟨25 * 60 * 60 * 1000, fun _ => "1/1/2024", fun s => s⟩
      0).2.2.2.2.2.2.1 rfl
  · exact (format_date_buckets ⟨8 * 24 * 60 * 60 * 1000, fun _ => "1/1/2024", fun s => s⟩
      0).2.2.2.2.2.2.2 rfl

/-- Claim C8 (counterexample): the page body `a  b` (two consecutive spaces)
has 2 whitespace-delimited tokens, but the enriched word_count is 3, because
the source splits at every single space character and counts empty fragments
as well. -/
theorem word_count_counterexample :
    (enhancePageResponse cfgDocs envEx trNone stEmpty pageTwoSpaces).1.word_count = 3 ∧
    whitespaceTokenCount pageTwoSpaces.text = 2 := by
  constructor
  · have h1 : (enhancePageResponse cfgDocs envEx trNone stEmpty pageTwoSpaces).1.word_count =
        ("a  b".split fun c => c == ' ').length := rfl
    rw [h1, String.split_of_valid]
    decide
  · have h2 : whitespaceTokenCount pageTwoSpaces.text =
        (("a  b".split fun c => c.isWhitespace).filter fun s => s ≠ "").length := rfl
    rw [h2, String.split_of_valid]
    decide

/-- Claim C8 (amended): the word_count field equals the number of fragments
obtained by splitting the body text at every single space character (empty
fragments included), and is 0 for empty or absent body text.  This differs
from the whitespace-token count whenever the text has consecutive, leading or
trailing spaces, or non-space whitespace. -/
theorem word_count_space_split (cfg : Config) (env : Env) (tr : Transport)
    (st : ClientState) (page : Page) :
    (enhancePageResponse cfg env tr st page).1.word_count =
      spaceSplitWordCount page.text ∧
    spaceSplitWordCount "" = 0 := by
  constructor
  · simp only [enhancePageResponse, spaceSplitWordCount]
  · rfl

/-- Claim C7 (counterexample): an empty page body is text of length at most
the 200-character threshold, yet the generated preview is the placeholder
string rather than the original (empty) text: the source treats the empty
string as absent text by JavaScript truthiness. -/
theorem preview_counterexample :
    pageNoText.text.length ≤ 200 ∧
    (enhancePageResponse cfgDocs envEx trNone stEmpty pageNoText).1.content_preview ≠
      pageNoText.text := by
  exact ⟨by decide, by decide⟩

/-- Claim C7 (amended): for every nonempty free text strictly longer than its
threshold (100 for book/chapter/shelf descriptions, 150 for search-result
snippets, 200 for page body), the preview is the first threshold characters
followed by the ellipsis marker, so its length is threshold+3; for nonempty
text at or under the threshold the preview is the original text; empty or
absent text yields the fixed placeholder. -/
theorem preview_truncation (cfg : Config) (env : Env) (tr : Transport)
    (st : ClientState) (book : Book) (chapter : Chapter) (shelf : Shelf)
    (page : Page) (sr : SearchResult) (pc : PreviewContent) :
    (book.description ≠ "" → 100 < book.description.length →
      (enhanceBookResponse cfg env book).summary =
        book.description.take 100 ++ "..." ∧
      (enhanceBookResponse cfg env book).summary.length = 103) ∧
    (book.description ≠ "" → book.description.length ≤ 100 →
      (enhanceBookResponse cfg env book).summary = book.description) ∧
    (book.description = "" →
      (enhanceBookResponse cfg env book).summary = "No description available") ∧
    (chapter.description ≠ "" → 100 < chapter.description.length →
      (enhanceChapterResponse cfg env tr st chapter).1.summary =
        chapter.description.take 100 ++ "..." ∧
      (enhanceChapterResponse cfg env tr st chapter).1.summary.length = 103) ∧
    (chapter.description ≠ "" → chapter.description.length ≤ 100 →
      (enhanceChapterResponse cfg env tr st chapter).1.summary =
        chapter.description) ∧
    (chapter.description = "" →
      (enhanceChapterResponse cfg env tr st chapter).1.summary =
        "No description available") ∧
    (shelf.description ≠ "" → 100 < shelf.description.length →
      (enhanceShelfResponse cfg env shelf).summary =
        shelf.description.take 100 ++ "..." ∧
      (enhanceShelfResponse cfg env shelf).summary.length = 103) ∧
    (shelf.description ≠ "" → shelf.description.length ≤ 100 →
      (enhanceShelfResponse cfg env shelf).summary = shelf.description) ∧
    (shelf.description = "" →
      (enhanceShelfResponse cfg env shelf).summary = "No description available") ∧
    (page.text ≠ "" → 200 < page.text.length →
      (enhancePageResponse cfg env tr st page).1.content_preview =
        page.text.take 200 ++ "..." ∧
      (enhancePageResponse cfg env tr st page).1.content_preview.length = 203) ∧
    (page.text ≠ "" → page.text.length ≤ 200 →
      (enhancePageResponse cfg env tr st page).1.content_preview = page.text) ∧
    (page.text = "" →
      (enhancePageResponse cfg env tr st page).1.content_preview =
        "No content preview available") ∧
    (sr.preview_content = some pc → pc.content ≠ "" → 150 < pc.content.length →
      (enhanceSearchResult cfg tr st sr).1.content_preview =
        pc.content.take 150 ++ "..." ∧
      (enhanceSearchResult cfg tr st sr).1.content_preview.length = 153) ∧
    (sr.preview_content = some pc → pc.content ≠ "" → pc.content.length ≤ 150 →
      (enhanceSearchResult cfg tr st sr).1.content_preview = pc.content) ∧
    (sr.preview_content = some pc → pc.content = "" →
      (enhanceSearchResult cfg tr st sr).1.content_preview =
        "No preview available") ∧
    (sr.preview_content = none →
      (enhanceSearchResult cfg tr st sr).1.content_preview =
        "No preview available") := by
  refine ⟨fun h1 h2 => ?_, fun h1 h2 => ?_, fun h1 => ?_, fun h1 h2 => ?_,
    fun h1 h2 => ?_, fun h1 => ?_, fun h1 h2 => ?_, fun h1 h2 => ?_, fun h1 => ?_,
    fun h1 h2 => ?_, fun h1 h2 => ?_, fun h1 => ?_, fun hp h1 h2 => ?_,
    fun hp h1 h2 => ?_, fun hp h1 => ?_, fun hp => ?_⟩
  · simp only [enhanceBookResponse]
    rw [if_pos h1]
    exact ⟨jsTruncate_eq_of_lt _ _ h2, jsTruncate_length_of_lt _ _ h2⟩
  · simp only [enhanceBookResponse]
    rw [if_pos h1]
    exact jsTruncate_of_length_le _ _ h2
  · simp only [enhanceBookResponse]
    rw [if_neg fun hne => hne h1]
  · simp only [enhanceChapterResponse]
    rw [if_pos h1]
    exact ⟨jsTruncate_eq_of_lt _ _ h2, jsTruncate_length_of_lt _ _ h2⟩
  · simp only [enhanceChapterResponse]
    rw [if_pos h1]
    exact jsTruncate_of_length_le _ _ h2
  · simp only [enhanceChapterResponse]
    rw [if_neg fun hne => hne h1]
  · simp only [enhanceShelfResponse]
    rw [if_pos h1]
    exact ⟨jsTruncate_eq_of_lt _ _ h2, jsTruncate_length_of_lt _ _ h2⟩
  · simp only [enhanceShelfResponse]
    rw [if_pos h1]
    exact jsTruncate_of_length_le _ _ h2
  · simp only [enhanceShelfResponse]
    rw [if_neg fun hne => hne h1]
  · simp only [enhancePageResponse]
    rw [if_pos h1]
    exact ⟨jsTruncate_eq_of_lt _ _ h2, jsTruncate_length_of_lt _ _ h2⟩
  · simp only [enhancePageResponse]
    rw [if_pos h1]
    exact jsTruncate_of_length_le _ _ h2
  · simp only [enhancePageResponse]
    rw [if_neg fun hne => hne h1]
  · simp only [enhanceSearchResult, hp]
    rw [if_pos h1]
    exact ⟨jsTruncate_eq_of_lt _ _ h2, jsTruncate_length_of_lt _ _ h2⟩
  · simp only [enhanceSearchResult, hp]
    rw [if_pos h1]
    exact jsTruncate_of_length_le _ _ h2
  · simp only [enhanceSearchResult, hp]
    rw [if_neg fun hne => hne h1]
  · simp only [enhanceSearchResult, hp]

/-- Witness for C7 (amended): concrete texts above, at and below the
thresholds, evaluated through the truncation theorem. -/
theorem preview_truncation_witness :
    (enhancePageResponse cfgDocs envEx trNone stEmpty pageTwoSpaces).1.content_preview =
      "a  b" ∧
    (enhanceBookResponse cfgDocs envEx bookGuide).summary =
      "No description available" := by
  constructor
  · exact (preview_truncation cfgDocs envEx trNone stEmpty bookGuide chapterEx
      shelfEx pageTwoSpaces ⟨"page", 1, "N", "n", none, none, none, none, none⟩
      ⟨"", ""⟩).2.2.2.2.2.2.2.2.2.2.1 (by decide) (by decide)
  · exact (preview_truncation cfgDocs envEx trNone stEmpty bookGuide chapterEx
      shelfEx pageTwoSpaces ⟨"page", 1, "N", "n", none, none, none, none, none⟩
      ⟨"", ""⟩).2.2.1 (by decide)

/-- Claim C6: slug resolution never fails — both resolvers are total, and
when the underlying fetch fails, `getBookSlug` returns the stringified book
id while `getPageInfo` returns the stringified page id with book id 0, so
address construction always produces a value. -/
theorem slug_resolution_never_fails (tr : Transport) (st : ClientState)
    (id : Nat) (hb : tr.fetchBook id = none) (hp : tr.fetchPage id = none)
    (hcb : st.bookSlugCache.lookup id = none)
    (hcp : st.pageInfoCache.lookup id = none) :
    (getBookSlug tr st id).1 = toString id ∧
    (getPageInfo tr st id).1 = ⟨toString id, 0⟩ := by
  constructor
  · simp only [getBookSlug, hcb, hb]
  · simp only [getPageInfo, hcp, hp]

/-- Witness for C6: a failing transport on the fresh cache state. -/
theorem slug_resolution_never_fails_witness :
    (getBookSlug trNone stEmpty 1).1 = "1" ∧
    (getPageInfo trNone stEmpty 1).1 = ⟨"1", 0⟩ := by
  exact slug_resolution_never_fails trNone stEmpty 1 rfl rfl rfl rfl

/-- Claim C5 (counterexample): with a transport on which the underlying fetch
fails, resolving the same book id twice through the cache issues two fetch
calls, not one — the failure fallback is never stored, so the second
resolution is not answered from the cache. -/
theorem slug_cache_double_fetch_on_failure :
    ((getBookSlug trNone stEmpty 1).2.2 +
      (getBookSlug trNone (getBookSlug trNone stEmpty 1).2.1 1).2.2 = 2) ∧
    ¬((getBookSlug trNone stEmpty 1).2.2 +
      (getBookSlug trNone (getBookSlug trNone stEmpty 1).2.1 1).2.2 = 1) := by
  constructor <;> decide

/-- Claim C5 (amended): when the first resolution's underlying fetch
succeeds, resolving the same id twice issues exactly one fetch — the second
resolution is answered from the cache with zero additional transport
invocations and returns the same value (for books and for pages alike).
When the fetch fails, the fallback is not cached and each resolution issues
its own fetch. -/
theorem slug_cache_idempotent_on_success (tr : Transport) (st : ClientState)
    (id : Nat) (b : Book) (p : Page) :
    (tr.fetchBook id = some b → st.bookSlugCache.lookup id = none →
      (getBookSlug tr st id).2.2 = 1 ∧
      (getBookSlug tr (getBookSlug tr st id).2.1 id).2.2 = 0 ∧
      (getBookSlug tr (getBookSlug tr st id).2.1 id).1 =
        (getBookSlug tr st id).1) ∧
    (tr.fetchPage id = some p → st.pageInfoCache.lookup id = none →
      (getPageInfo tr st id).2.2 = 1 ∧
      (getPageInfo tr (getPageInfo tr st id).2.1 id).2.2 = 0 ∧
      (getPageInfo tr (getPageInfo tr st id).2.1 id).1 =
        (getPageInfo tr st id).1) ∧
    (tr.fetchBook id = none → st.bookSlugCache.lookup id = none →
      getBookSlug tr st id = (toString id, st, 1) ∧
      (getBookSlug tr (getBookSlug tr st id).2.1 id).2.2 = 1) ∧
    (tr.fetchPage id = none → st.pageInfoCache.lookup id = none →
      getPageInfo tr st id = (⟨toString id, 0⟩, st, 1) ∧
      (getPageInfo tr (getPageInfo tr st id).2.1 id).2.2 = 1) := by
  refine ⟨fun hf hc => ?_, fun hf hc => ?_, fun hf hc => ?_, fun hf hc => ?_⟩
  · have h1 : getBookSlug tr st id =
        (jsOr b.slug (toString id),
          { st with bookSlugCache :=
              (id, jsOr b.slug (toString id)) :: st.bookSlugCache }, 1) := by
      simp only [getBookSlug, hc, hf]
    rw [h1]
    refine ⟨rfl, ?_, ?_⟩ <;> simp [getBookSlug, List.lookup]
  · have h1 : getPageInfo tr st id =
        (⟨jsOr p.slug (toString id), p.book_id⟩,
          { st with pageInfoCache :=
              (id, ⟨jsOr p.slug (toString id), p.book_id⟩) :: st.pageInfoCache },
          1) := by
      simp only [getPageInfo, hc, hf]
    rw [h1]
    refine ⟨rfl, ?_, ?_⟩ <;> simp [getPageInfo, List.lookup]
  · have h1 : getBookSlug tr st id = (toString id, st, 1) := by
      simp only [getBookSlug, hc, hf]
    rw [h1]
    exact ⟨rfl, by simp only [getBookSlug, hc, hf]⟩
  · have h1 : getPageInfo tr st id = (⟨toString id, 0⟩, st, 1) := by
      simp only [getPageInfo, hc, hf]
    rw [h1]
    exact ⟨rfl, by simp only [getPageInfo, hc, hf]⟩

/-- Witness for C5 (amended): a successful transport on the fresh cache,
resolving book id 7 twice. -/
theorem slug_cache_idempotent_on_success_witness :
    (getBookSlug trGuide stEmpty 7).2.2 = 1 ∧
    (getBookSlug trGuide (getBookSlug trGuide stEmpty 7).2.1 7).2.2 = 0 ∧
    (getBookSlug trGuide (getBookSlug trGuide stEmpty 7).2.1 7).1 =
      (getBookSlug trGuide stEmpty 7).1 := by
  exact (slug_cache_idempotent_on_success trGuide stEmpty 7 bookGuide
    pageIntro).1 rfl rfl

/-- Claim C10: for every page id whose info lookup fails or whose resolved
book id is 0, `generatePageUrlFromId` returns the permalink form
`baseUrl/link/pageId` rather than a /books/... path, and consequently the
`page_url` of an attachment (in `getAttachment`, `getAttachments`,
`createAttachment`, `uploadAttachment`, `updateAttachment`) degrades to that
/link/ form when the owning page cannot be fetched. -/
theorem link_fallback_unresolvable_page (cfg : Config) (tr : Transport)
    (st : ClientState) (pid aid : Nat) (att : Attachment) (fs : FileSystem)
    (data1 : AttachmentCreateData) (data2 : AttachmentUploadData)
    (data3 : AttachmentUpdateData) :
    (tr.fetchPage pid = none → st.pageInfoCache.lookup pid = none →
      (generatePageUrlFromId cfg tr st pid).1 =
        cfg.baseUrl ++ "/link/" ++ toString pid) ∧
    ((getPageInfo tr st pid).1.bookId = 0 →
      (generatePageUrlFromId cfg tr st pid).1 =
        cfg.baseUrl ++ "/link/" ++ toString pid) ∧
    ((getPageInfo tr st att.uploaded_to).1.bookId = 0 →
      detailPageUrl (getAttachment cfg tr st aid (Except.ok att)).1 =
        some (cfg.baseUrl ++ "/link/" ++ toString att.uploaded_to)) ∧
    ((getPageInfo tr st att.uploaded_to).1.bookId = 0 →
      ((enhanceAttachmentList cfg tr st [att]).1.map fun a => a.page_url) =
        [cfg.baseUrl ++ "/link/" ++ toString att.uploaded_to]) ∧
    (cfg.enableWrite = true → (getPageInfo tr st att.uploaded_to).1.bookId = 0 →
      attPageUrl (createAttachment cfg tr st data1 (Except.ok att)).1 =
        some (cfg.baseUrl ++ "/link/" ++ toString att.uploaded_to) ∧
      attPageUrl (updateAttachment cfg tr st aid data3 (Except.ok att)).1 =
        some (cfg.baseUrl ++ "/link/" ++ toString att.uploaded_to) ∧
      (fs.fileExists (expandPath fs data2.file_path) = true →
        attPageUrl (uploadAttachment cfg fs tr st data2 (Except.ok att)).1 =
          some (cfg.baseUrl ++ "/link/" ++ toString att.uploaded_to))) := by
  have hgen : ∀ q, (getPageInfo tr st q).1.bookId = 0 →
      (generatePageUrlFromId cfg tr st q).1 =
        cfg.baseUrl ++ "/link/" ++ toString q := by
    intro q h0
    simp only [generatePageUrlFromId]
    rw [if_neg fun hne => hne h0]
  refine ⟨fun hf hc => ?_, fun h0 => hgen pid h0, fun h0 => ?_, fun h0 => ?_,
    fun hw h0 => ⟨?_, ?_, fun hfs => ?_⟩⟩
  · apply hgen
    simp only [getPageInfo, hc, hf]
  · simp only [getAttachment, detailPageUrl]
    rw [hgen att.uploaded_to h0]
  · simp only [enhanceAttachmentList, List.map]
    rw [hgen att.uploaded_to h0]
  · simp only [createAttachment, hw, Bool.not_true, Bool.false_eq_true,
      if_false, attPageUrl]
    rw [hgen att.uploaded_to h0]
  · simp only [updateAttachment, hw, Bool.not_true, Bool.false_eq_true,
      if_false, attPageUrl]
    rw [hgen att.uploaded_to h0]
  · simp only [uploadAttachment, hw, hfs, Bool.not_true, Bool.false_eq_true,
      Bool.not_true, if_false, attPageUrl]
    rw [hgen att.uploaded_to h0]

/-- Witness for C10: a failing transport, so page 42 resolves to book id 0
and the attachment degrades to the /link/ route. -/
theorem link_fallback_unresolvable_page_witness :
    (generatePageUrlFromId cfgDocs trNone stEmpty 42).1 =
      "https://docs.example.com/link/42" ∧
    detailPageUrl (getAttachment cfgDocs trNone stEmpty 5 (Except.ok attEx)).1 =
      some "https://docs.example.com/link/42" := by
  have h := link_fallback_unresolvable_page cfgDocs trNone stEmpty 42 5 attEx
    fsTrue ⟨42, "n", none⟩ ⟨42, none, "/tmp/f"⟩ ⟨none, none, none⟩
  exact ⟨h.1 rfl rfl, h.2.2.1 (by decide)⟩

/-- Claim C4: generated navigable URLs use the slug segment for every record
with a nonempty slug and fall back to the numeric id segment when the slug is
empty, across books, pages, chapters and shelves; end-to-end, the page with
slug `intro` whose parent book has slug `guide` at base
https://docs.example.com yields
https://docs.example.com/books/guide/page/intro. -/
theorem slug_url_generation (cfg : Config) (tr : Transport) (st : ClientState)
    (book : Book) (page : Page) (chapter : Chapter) (shelf : Shelf) :
    (book.slug ≠ "" →
      generateBookUrl cfg book = cfg.baseUrl ++ "/books/" ++ book.slug) ∧
    (book.slug = "" →
      generateBookUrl cfg book = cfg.baseUrl ++ "/books/" ++ toString book.id) ∧
    (page.slug ≠ "" →
      (generatePageUrl cfg tr st page).1 =
        cfg.baseUrl ++ "/books/" ++ (getBookSlug tr st page.book_id).1 ++
          "/page/" ++ page.slug) ∧
    (page.slug = "" →
      (generatePageUrl cfg tr st page).1 =
        cfg.baseUrl ++ "/books/" ++ (getBookSlug tr st page.book_id).1 ++
          "/page/" ++ toString page.id) ∧
    (chapter.slug ≠ "" →
      (generateChapterUrl cfg tr st chapter).1 =
        cfg.baseUrl ++ "/books/" ++ (getBookSlug tr st chapter.book_id).1 ++
          "/chapter/" ++ chapter.slug) ∧
    (chapter.slug = "" →
      (generateChapterUrl cfg tr st chapter).1 =
        cfg.baseUrl ++ "/books/" ++ (getBookSlug tr st chapter.book_id).1 ++
          "/chapter/" ++ toString chapter.id) ∧
    (shelf.slug ≠ "" →
      generateShelfUrl cfg shelf = cfg.baseUrl ++ "/shelves/" ++ shelf.slug) ∧
    (shelf.slug = "" →
      generateShelfUrl cfg shelf =
        cfg.baseUrl ++ "/shelves/" ++ toString shelf.id) ∧
    (generatePageUrl cfgDocs trGuide stEmpty pageIntro).1 =
      "https://docs.example.com/books/guide/page/intro" := by
  refine ⟨fun h => ?_, fun h => ?_, fun h => ?_, fun h => ?_, fun h => ?_,
    fun h => ?_, fun h => ?_, fun h => ?_, by decide⟩
  · simp only [generateBookUrl, jsOr, if_neg h]
  · simp only [generateBookUrl, jsOr, if_pos h]
  · simp only [generatePageUrl, jsOr, if_neg h]
  · simp only [generatePageUrl, jsOr, if_pos h]
  · simp only [generateChapterUrl, jsOr, if_neg h]
  · simp only [generateChapterUrl, jsOr, if_pos h]
  · simp only [generateShelfUrl, jsOr, if_neg h]
  · simp only [generateShelfUrl, jsOr, if_pos h]

/-- Witness for C4: the guide book itself (nonempty slug) and a slugless
book falling back to its numeric id. -/
theorem slug_url_generation_witness :
    generateBookUrl cfgDocs bookGuide = "https://docs.example.com/books/guide" ∧
    generateBookUrl cfgDocs ⟨3, "NoSlug", "", "", none, none, 1⟩ =
      "https://docs.example.com/books/3" := by
  have h1 := slug_url_generation cfgDocs trGuide stEmpty bookGuide pageIntro
    chapterEx shelfEx
  have h2 := slug_url_generation cfgDocs trGuide stEmpty
    ⟨3, "NoSlug", "", "", none, none, 1⟩ pageIntro chapterEx shelfEx
  exact ⟨h1.1 (by decide), h2.2.1 rfl⟩

/-- Claim C3: after the retry loop, every non-2xx response is converted into
a single error value whose status field is the response status and whose
response field carries (status, body text); the message is the JSON body
message field when the body parses as JSON carrying a (nonempty) message,
else the body text itself. -/
theorem error_normalization (responses : Nat → HttpResponse)
    (attempt rl : Nat) (waits : List Nat) (res fres : HttpResponse)
    (h : resOk (responses attempt) = false) (hf : resOk fres = false) :
    ((responses attempt).status ≠ 429 ∨ rl = 0 →
      requestAux responses attempt rl waits =
        RequestOutcome.error (mkApiError (responses attempt)) (attempt + 1)
          waits) ∧
    requestForm fres = RequestOutcome.error (mkApiError fres) 1 [] ∧
    (mkApiError res).status = res.status ∧
    (mkApiError res).response = (res.status, res.body) ∧
    (∀ m, res.jsonMessage = some m → m ≠ "" → (mkApiError res).message = m) ∧
    (res.jsonMessage = none → (mkApiError res).message = res.body) := by
  refine ⟨?_, ?_, rfl, rfl, ?_, ?_⟩
  · intro hd
    cases rl with
    | zero => simp [requestAux, h]
    | succ r =>
      have h429 : (responses attempt).status ≠ 429 := by
        cases hd with
        | inl h1 => exact h1
        | inr h2 => exact absurd h2 (Nat.succ_ne_zero r)
      simp [requestAux, h429, h]
  · simp [requestForm, hf]
  · intro m hm hne
    simp [mkApiError, hm, hne]
  · intro hm
    simp [mkApiError, hm]

/-- Witness for C3: a 404 response with JSON body carrying message
`Not found` yields the error with message `Not found`, status 404 and the
raw body in the response field. -/
theorem error_normalization_witness :
    requestAux (fun _ => res404) 0 3 [] =
      RequestOutcome.error
        ⟨"Not found", 404, (404, "\x7b\"message\": \"Not found\"\x7d")⟩ 1 [] ∧
    (mkApiError res404).message = "Not found" ∧
    (mkApiError res404).status = 404 := by
  have h := error_normalization (fun _ => res404) 0 3 [] res404 res404
    (by decide) (by decide)
  refine ⟨?_, ?_, ?_⟩
  · rw [h.1 (Or.inl (by decide))]
    decide
  · exact h.2.2.2.2.1 "Not found" rfl (by decide)
  · exact h.2.2.1

/-- Claim C2: a 429 with retries remaining causes a wait of the retry-after
header value in seconds (10 when the header is absent) and a re-issue of the
identical request; a 429 followed by a 2xx succeeds after exactly one retry
(2 attempts, one wait); persistent 429 responses fail after exactly 3
additional attempts (4 total), surfacing the normalized error with
status 429. -/
theorem request_retry_429 (responses : Nat → HttpResponse) :
    ((∀ i, (responses i).status = 429) →
      request responses =
        RequestOutcome.error (mkApiError (responses 3)) 4
          [(responses 0).retryAfter.getD 10, (responses 1).retryAfter.getD 10,
            (responses 2).retryAfter.getD 10] ∧
      (mkApiError (responses 3)).status = 429) ∧
    ((responses 0).status = 429 → resOk (responses 1) = true →
      request responses =
        RequestOutcome.ok (responses 1) 2
          [(responses 0).retryAfter.getD 10]) := by
  have step : ∀ a r w, (responses a).status = 429 →
      requestAux responses a (r + 1) w =
        requestAux responses (a + 1) r (w ++ [(responses a).retryAfter.getD 10]) := by
    intro a r w h429
    simp only [requestAux]
    rw [if_pos h429]
  have stopErr : ∀ a w, resOk (responses a) = false →
      requestAux responses a 0 w =
        RequestOutcome.error (mkApiError (responses a)) (a + 1) w := by
    intro a w hok
    simp [requestAux, hok]
  have stepOk : ∀ a r w, (responses a).status ≠ 429 → resOk (responses a) = true →
      requestAux responses a (r + 1) w =
        RequestOutcome.ok (responses a) (a + 1) w := by
    intro a r w h429 hok
    simp only [requestAux]
    rw [if_neg h429, if_pos hok]
  constructor
  · intro hall
    constructor
    · calc request responses
          = requestAux responses 1 2
              ([] ++ [(responses 0).retryAfter.getD 10]) := step 0 2 [] (hall 0)
        _ = requestAux responses 2 1
              (([] ++ [(responses 0).retryAfter.getD 10]) ++
                [(responses 1).retryAfter.getD 10]) := step 1 1 _ (hall 1)
        _ = requestAux responses 3 0
              ((([] ++ [(responses 0).retryAfter.getD 10]) ++
                [(responses 1).retryAfter.getD 10]) ++
                  [(responses 2).retryAfter.getD 10]) := step 2 0 _ (hall 2)
        _ = RequestOutcome.error (mkApiError (responses 3)) 4
              [(responses 0).retryAfter.getD 10, (responses 1).retryAfter.getD 10,
                (responses 2).retryAfter.getD 10] :=
            stopErr 3 _ (by simp [resOk, hall 3])
    · exact hall 3
  · intro h0 h1
    have h429 : (responses 1).status ≠ 429 := by
      simp only [resOk, Bool.and_eq_true, decide_eq_true_eq] at h1
      omega
    calc request responses
        = requestAux responses 1 2
            ([] ++ [(responses 0).retryAfter.getD 10]) := step 0 2 [] h0
      _ = RequestOutcome.ok (responses 1) 2
            [(responses 0).retryAfter.getD 10] := stepOk 1 1 _ h429 h1

/-- Witness for C2: a persistent-429 transport fails after 4 attempts with
three 1-second waits; a 429-then-200 transport succeeds on the second
attempt after one wait. -/
theorem request_retry_429_witness :
    request responses429 =
      RequestOutcome.error ⟨"rate limited", 429, (429, "rate limited")⟩ 4
        [1, 1, 1] ∧
    request responses429then200 = RequestOutcome.ok resp200 2 [1] := by
  constructor
  · rw [((request_retry_429 responses429).1 fun i => rfl).1]
    decide
  · rw [(request_retry_429 responses429then200).2 rfl (by decide)]
    decide

/-- Claim C1: every mutating operation of the client checks the write flag
first.  With the flag false it returns the fixed write-disabled error and
issues zero transport invocations, whatever the inputs and whatever the
transport would have replied; with the flag true it proceeds to issue the
request (at least one transport invocation) and, when the reply succeeds,
returns the normalized, enriched-where-applicable record.  The final
conjunct exhibits the fixed identifying substring of the error message. -/
theorem write_gate_ops (cfg : Config) (env : Env) (tr : Transport)
    (fs : FileSystem) (st : ClientState) (id : Nat)
    (bookData : BookCreateData) (bookUpd : BookUpdateData)
    (chapterData : ChapterCreateData) (chapterUpd : ChapterUpdateData)
    (pageData : PageCreateData) (pageUpd : PageUpdateData)
    (shelfData : ShelfCreateData) (shelfUpd : ShelfUpdateData)
    (attData : AttachmentCreateData) (upData : AttachmentUploadData)
    (attUpd : AttachmentUpdateData) (comData : CommentCreateData)
    (comUpd : CommentUpdateData)
    (rBook : Reply Book) (rChapter : Reply Chapter) (rPage : Reply Page)
    (rShelf : Reply Shelf) (rAtt : Reply Attachment) (rCom : Reply Comment)
    (rUnit : Reply Unit)
    (book : Book) (chapter : Chapter) (page : Page) (shelf : Shelf)
    (att : Attachment) (com : Comment) :
    (cfg.enableWrite = false →
      createBook cfg env bookData rBook =
        (Except.error (OpError.loc writeDisabledMessage), 0) ∧
      updateBook cfg env id bookUpd rBook =
        (Except.error (OpError.loc writeDisabledMessage), 0) ∧
      deleteBook cfg id rUnit =
        (Except.error (OpError.loc writeDisabledMessage), 0) ∧
      createChapter cfg env tr st chapterData rChapter =
        (Except.error (OpError.loc writeDisabledMessage), st, 0) ∧
      updateChapter cfg env tr st id chapterUpd rChapter =
        (Except.error (OpError.loc writeDisabledMessage), st, 0) ∧
      deleteChapter cfg id rUnit =
        (Except.error (OpError.loc writeDisabledMessage), 0) ∧
      createPage cfg env tr st pageData rPage =
        (Except.error (OpError.loc writeDisabledMessage), st, 0) ∧
      updatePage cfg env tr st id pageUpd rPage =
        (Except.error (OpError.loc writeDisabledMessage), st, 0) ∧
      deletePage cfg id rUnit =
        (Except.error (OpError.loc writeDisabledMessage), 0) ∧
      createShelf cfg env shelfData rShelf =
        (Except.error (OpError.loc writeDisabledMessage), 0) ∧
      updateShelf cfg env id shelfUpd rShelf =
        (Except.error (OpError.loc writeDisabledMessage), 0) ∧
      deleteShelf cfg id rUnit =
        (Except.error (OpError.loc writeDisabledMessage), 0) ∧
      createAttachment cfg tr st attData rAtt =
        (Except.error (OpError.loc writeDisabledMessage), st, 0) ∧
      uploadAttachment cfg fs tr st upData rAtt =
        (Except.error (OpError.loc writeDisabledMessage), st, 0) ∧
      updateAttachment cfg tr st id attUpd rAtt =
        (Except.error (OpError.loc writeDisabledMessage), st, 0) ∧
      deleteAttachment cfg id rUnit =
        (Except.error (OpError.loc writeDisabledMessage), 0) ∧
      createComment cfg comData rCom =
        (Except.error (OpError.loc writeDisabledMessage), 0) ∧
      updateComment cfg id comUpd rCom =
        (Except.error (OpError.loc writeDisabledMessage), 0) ∧
      deleteComment cfg id rUnit =
        (Except.error (OpError.loc writeDisabledMessage), 0)) ∧
    (cfg.enableWrite = true →
      createBook cfg env bookData (Except.ok book) =
        (Except.ok (enhanceBookResponse cfg env book), 1) ∧
      updateBook cfg env id bookUpd (Except.ok book) =
        (Except.ok (enhanceBookResponse cfg env book), 1) ∧
      deleteBook cfg id (Except.ok ()) = (Except.ok (), 1) ∧
      createChapter cfg env tr st chapterData (Except.ok chapter) =
        (Except.ok (enhanceChapterResponse cfg env tr st chapter).1,
          (enhanceChapterResponse cfg env tr st chapter).2.1,
          1 + (enhanceChapterResponse cfg env tr st chapter).2.2) ∧
      updateChapter cfg env tr st id chapterUpd (Except.ok chapter) =
        (Except.ok (enhanceChapterResponse cfg env tr st chapter).1,
          (enhanceChapterResponse cfg env tr st chapter).2.1,
          1 + (enhanceChapterResponse cfg env tr st chapter).2.2) ∧
      deleteChapter cfg id (Except.ok ()) = (Except.ok (), 1) ∧
      createPage cfg env tr st pageData (Except.ok page) =
        (Except.ok (enhancePageResponse cfg env tr st page).1,
          (enhancePageResponse cfg env tr st page).2.1,
          1 + (enhancePageResponse cfg env tr st page).2.2) ∧
      updatePage cfg env tr st id pageUpd (Except.ok page) =
        (Except.ok (enhancePageResponse cfg env tr st page).1,
          (enhancePageResponse cfg env tr st page).2.1,
          1 + (enhancePageResponse cfg env tr st page).2.2) ∧
      deletePage cfg id (Except.ok ()) = (Except.ok (), 1) ∧
      createShelf cfg env shelfData (Except.ok shelf) =
        (Except.ok (enhanceShelfResponse cfg env shelf), 1) ∧
      updateShelf cfg env id shelfUpd (Except.ok shelf) =
        (Except.ok (enhanceShelfResponse cfg env shelf), 1) ∧
      deleteShelf cfg id (Except.ok ()) = (Except.ok (), 1) ∧
      createAttachment cfg tr st attData (Except.ok att) =
        (Except.ok ⟨att, (generatePageUrlFromId cfg tr st att.uploaded_to).1,
          attachmentDirectLink cfg att⟩,
          (generatePageUrlFromId cfg tr st att.uploaded_to).2.1,
          1 + (generatePageUrlFromId cfg tr st att.uploaded_to).2.2) ∧
      (fs.fileExists (expandPath fs upData.file_path) = true →
        uploadAttachment cfg fs tr st upData (Except.ok att) =
          (Except.ok ⟨att, (generatePageUrlFromId cfg tr st att.uploaded_to).1,
            attachmentDirectLink cfg att⟩,
            (generatePageUrlFromId cfg tr st att.uploaded_to).2.1,
            1 + (generatePageUrlFromId cfg tr st att.uploaded_to).2.2)) ∧
      updateAttachment cfg tr st id attUpd (Except.ok att) =
        (Except.ok ⟨att, (generatePageUrlFromId cfg tr st att.uploaded_to).1,
          attachmentDirectLink cfg att⟩,
          (generatePageUrlFromId cfg tr st att.uploaded_to).2.1,
          1 + (generatePageUrlFromId cfg tr st att.uploaded_to).2.2) ∧
      deleteAttachment cfg id (Except.ok ()) = (Except.ok (), 1) ∧
      createComment cfg comData (Except.ok com) = (Except.ok com, 1) ∧
      updateComment cfg id comUpd (Except.ok com) = (Except.ok com, 1) ∧
      deleteComment cfg id (Except.ok ()) = (Except.ok (), 1)) ∧
    writeDisabledMessage =
      "Write operations are disabled" ++
        ". Set BOOKSTACK_ENABLE_WRITE=true to enable." := by
  refine ⟨fun h => ?_, fun h => ?_, rfl⟩
  · simp [createBook, updateBook, deleteBook, createChapter, updateChapter,
      deleteChapter, createPage, updatePage, deletePage, createShelf,
      updateShelf, deleteShelf, createAttachment, uploadAttachment,
      updateAttachment, deleteAttachment, createComment, updateComment,
      deleteComment, h]
  · simp [createBook, updateBook, deleteBook, createChapter, updateChapter,
      deleteChapter, createPage, updatePage, deletePage, createShelf,
      updateShelf, deleteShelf, createAttachment, uploadAttachment,
      updateAttachment, deleteAttachment, createComment, updateComment,
      deleteComment, h]

/-- Witness for C1: with writes disabled, createBook returns the fixed error
with zero transport calls; with writes enabled, createBook returns the
enriched record after one call and uploadAttachment (with an existing file)
proceeds past both local guards. -/
theorem write_gate_ops_witness :
    createBook cfgDocs envEx ⟨"B", none, none⟩ (Except.ok bookGuide) =
      (Except.error (OpError.loc writeDisabledMessage), 0) ∧
    createBook cfgDocsOn envEx ⟨"B", none, none⟩ (Except.ok bookGuide) =
      (Except.ok (enhanceBookResponse cfgDocsOn envEx bookGuide), 1) ∧
    uploadAttachment cfgDocsOn fsTrue trNone stEmpty ⟨42, none, "/tmp/f.pdf"⟩
      (Except.ok attEx) =
      (Except.ok ⟨attEx,
        (generatePageUrlFromId cfgDocsOn trNone stEmpty 42).1,
        attachmentDirectLink cfgDocsOn attEx⟩,
        (generatePageUrlFromId cfgDocsOn trNone stEmpty 42).2.1,
        1 + (generatePageUrlFromId cfgDocsOn trNone stEmpty 42).2.2) := by
  have hoff := write_gate_ops cfgDocs envEx trNone fsTrue stEmpty 1
    ⟨"B", none, none⟩ ⟨none, none, none⟩ ⟨7, "C", none, none⟩
    ⟨none, none, none, none⟩ ⟨"P", none, none, 7, none⟩ ⟨none, none, none⟩
    ⟨"S", none, none, none⟩ ⟨none, none, none, none⟩ ⟨42, "A", none⟩
    ⟨42, none, "/tmp/f.pdf"⟩ ⟨none, none, none⟩ ⟨42, "h", none, none⟩
    ⟨none, none⟩ (Except.ok bookGuide) (Except.ok chapterEx)
    (Except.ok pageIntro) (Except.ok shelfEx) (Except.ok attEx)
    (Except.ok comEx) (Except.ok ()) bookGuide chapterEx pageIntro shelfEx
    attEx comEx
  have hon := write_gate_ops cfgDocsOn envEx trNone fsTrue stEmpty 1
    ⟨"B", none, none⟩ ⟨none, none, none⟩ ⟨7, "C", none, none⟩
    ⟨none, none, none, none⟩ ⟨"P", none, none, 7, none⟩ ⟨none, none, none⟩
    ⟨"S", none, none, none⟩ ⟨none, none, none, none⟩ ⟨42, "A", none⟩
    ⟨42, none, "/tmp/f.pdf"⟩ ⟨none, none, none⟩ ⟨42, "h", none, none⟩
    ⟨none, none⟩ (Except.ok bookGuide) (Except.ok chapterEx)
    (Except.ok pageIntro) (Except.ok shelfEx) (Except.ok attEx)
    (Except.ok comEx) (Except.ok ()) bookGuide chapterEx pageIntro shelfEx
    attEx comEx
  refine ⟨(hoff.1 rfl).1, (hon.2.1 rfl).1, ?_⟩
  exact (hon.2.1 rfl).2.2.2.2.2.2.2.2.2.2.2.2.2.1 rfl

end BookStack
